import Mathlib

/-!
Verification of the image-generation MCP server core
(`openai_image_gen_edit/together_app.py`): the base64 magic-byte image-type
detector, the image fetcher, and the artifact normalization pipeline used by
the `generate_image`, `edit_image` and `describe_image` tool handlers.

Modelling conventions:
  * Python byte strings are `List Nat` (each element one byte).
  * Base64 text buffers are `List Char`; other strings are `String`.
  * Raised Python exceptions are `Except PyError`.
  * The upstream Together API, the HTTP GET transport and the file system are
    opaque oracles passed in as function parameters; the list of URLs fetched
    is returned alongside the result so that network activity is observable.
    The oracles are total functions, so failures of these collaborators
    (file open, HTTP transport, upstream client) are outside the model:
    theorems about the handlers are conditioned on collaborator success and
    characterize only the handlers' own logic.
  * `uuid.uuid4().hex` is modelled as an externally supplied `case_id`.
-/

/-- Errors raised by the Python code: `ValueError(msg)` for the explicit
raises in the handlers, `binasciiError` for a failing `base64.b64decode`.
The `invalidInput` constructor exists in the spec's error taxonomy
(missing/empty required string argument); the code never raises it. -/
inductive PyError where
  | valueError (msg : String)
  | binasciiError
  | invalidInput
deriving DecidableEq, Repr

deriving instance DecidableEq for Except

/-- The spec's `NoImageData` taxonomy entry: "upstream returned zero images,
or an image reference with neither a URL nor inline payload" — i.e. either of
the two `ValueError`s raised by the handlers. -/
def isNoImageData (e : PyError) : Prop :=
  e = PyError.valueError "No images generated" ∨
  e = PyError.valueError "No image data in response"

instance (e : PyError) : Decidable (isNoImageData e) := by
  unfold isNoImageData; infer_instance

/-- The standard base64 alphabet, index i ↦ character. -/
def b64alphabet : List Char :=
  "ABCDEFGHIJKLMNOPQRSTUVWXYZabcdefghijklmnopqrstuvwxyz0123456789+/".toList

/-- Character for a 6-bit group (used by `base64.b64encode`). -/
def b64chr (n : Nat) : Char := b64alphabet.getD n 'A'

/-- 6-bit value of a base64 alphabet character; `none` for a character
outside the alphabet (including the padding character). -/
def b64val (c : Char) : Option Nat :=
  let i := b64alphabet.indexOf c
  if i < 64 then some i else none

/-- Python's `base64.b64encode`, on a byte list: bytes are grouped in threes;
a final group of one or two bytes is padded with `=`. -/
def b64encode : List Nat → List Char
  | [] => []
  | [a] => [b64chr (a / 4), b64chr (a % 4 * 16), '=', '=']
  | [a, b] => [b64chr (a / 4), b64chr (a % 4 * 16 + b / 16), b64chr (b % 16 * 4), '=']
  | a :: b :: c :: rest =>
      b64chr (a / 4) :: b64chr (a % 4 * 16 + b / 16) ::
      b64chr (b % 16 * 4 + c / 64) :: b64chr (c % 64) :: b64encode rest

/-- Python's `base64.b64decode` on a canonical base64 string: characters are
consumed four at a time, each quartet yielding three bytes, except that a
final quartet may carry one (`xy==`) or two (`xyz=`) bytes of payload.
A string that is not canonical base64 yields `none` (Python:
`binascii.Error`). -/
def b64decode : List Char → Option (List Nat)
  | [] => some []
  | a :: b :: c :: d :: rest =>
      match b64val a, b64val b with
      | some va, some vb =>
          if c = '=' then
            if d = '=' ∧ rest = [] then some [va * 4 + vb / 16] else none
          else
            match b64val c with
            | some vc =>
                if d = '=' then
                  if rest = [] then some [va * 4 + vb / 16, vb % 16 * 16 + vc / 4]
                  else none
                else
                  match b64val d with
                  | some vd =>
                      (b64decode rest).map
                        (fun t => (va * 4 + vb / 16) :: (vb % 16 * 16 + vc / 4) ::
                                  (vc % 4 * 64 + vd) :: t)
                  | none => none
            | none => none
      | _, _ => none
  | _ => none

/-- `b"\x89PNG\r\n\x1a\n"` — the 8-byte PNG signature. -/
def pngSignature : List Nat := [0x89, 0x50, 0x4E, 0x47, 0x0D, 0x0A, 0x1A, 0x0A]

/-- `b"\xff\xd8\xff"` — the 3-byte JPEG signature. -/
def jpegSignature : List Nat := [0xFF, 0xD8, 0xFF]

/-- `b"RIFF"` in ASCII. -/
def riffSignature : List Nat := [0x52, 0x49, 0x46, 0x46]

/-- `b"WEBP"` in ASCII. -/
def webpMarker : List Nat := [0x57, 0x45, 0x42, 0x50]

/-- Python `bytes.startswith`: true iff `sig` is an initial segment of `h`
(false whenever `h` is shorter than `sig`). -/
def bytesStartWith (h sig : List Nat) : Bool := h.take sig.length == sig

/-- The signature cascade of `detect_image_type`, applied to the decoded
header bytes, in source order with first match winning. -/
def classifyHeader (header_bytes : List Nat) : String :=
  if bytesStartWith header_bytes pngSignature then "png"
  else if bytesStartWith header_bytes jpegSignature then "jpeg"
  else if bytesStartWith header_bytes riffSignature &&
          ((header_bytes.drop 8).take 4 == webpMarker) then "webp"
  else "png"

/-- `detect_image_type(b64string)`: decode the first 32 base64 characters
(`base64.b64decode(b64string[:32])`) and classify the header bytes; a
decode failure propagates as `binascii.Error`. -/
def detect_image_type (b64string : List Char) : Except PyError String :=
  match b64decode (b64string.take 32) with
  | none => Except.error PyError.binasciiError
  | some header_bytes => Except.ok (classifyHeader header_bytes)

example : b64decode ("iVBORw0KGgo=".toList) =
    some [0x89, 0x50, 0x4E, 0x47, 0x0D, 0x0A, 0x1A, 0x0A] := by decide

example : detect_image_type (b64encode (pngSignature ++ List.replicate 16 0)) =
    Except.ok "png" := by decide

example : detect_image_type (b64encode (jpegSignature ++ List.replicate 21 0)) =
    Except.ok "jpeg" := by decide

example : detect_image_type
    (b64encode (riffSignature ++ List.replicate 4 0 ++ webpMarker ++ List.replicate 12 0)) =
    Except.ok "webp" := by decide

example : detect_image_type [] = Except.ok "png" := by decide

example : detect_image_type ("/9j/".toList) = Except.ok "jpeg" := by decide

/-- One upstream image reference (`response.data[i]`): a pydantic object with
an optional remote `url` and an optional inline base64 payload `b64_json`. -/
structure UpstreamImageReference where
  url : Option String
  b64_json : Option (List Char)
deriving DecidableEq, Repr

/-- The `mcp.types.ImageContent` result object built by the handlers. `data`
holds base64 text. -/
structure ImageContent where
  type : String
  data : List Char
  mimeType : String
  annotations : List (String × String)
deriving DecidableEq, Repr

/-- The `elif image.b64_json: ... else: raise` tail of the fetch logic.
Python truthiness: a `None` or empty `b64_json` falls through to
`ValueError("No image data in response")`. -/
def fetchInline : Option (List Char) → Except PyError (List Char × List String)
  | some b =>
      if b ≠ [] then Except.ok (b, [])
      else Except.error (PyError.valueError "No image data in response")
  | none => Except.error (PyError.valueError "No image data in response")

/-- The fetch logic shared by `generate_image` and `edit_image`: if the
reference's `url` is truthy, `requests.get` it and base64-encode the response
body (recording the URL fetched); otherwise fall back to the inline payload.
The second component of the result lists the URLs fetched over the network. -/
def fetchImage (httpGet : String → List Nat) (image : UpstreamImageReference) :
    Except PyError (List Char × List String) :=
  match image.url with
  | some u =>
      if u ≠ "" then Except.ok (b64encode (httpGet u), [u])
      else fetchInline image.b64_json
  | none => fetchInline image.b64_json

/-- `generate_image(prompt)`. The upstream Together client is the oracle
`upstream` (applied to the prompt it is called with), the HTTP transport is
`httpGet`, and `uuid.uuid4().hex` is the externally supplied `case_id`.
Returns the `ImageContent` together with the list of URLs fetched, or the
raised error. -/
def generate_image (prompt : String)
    (upstream : String → List UpstreamImageReference)
    (httpGet : String → List Nat) (case_id : String) :
    Except PyError (ImageContent × List String) :=
  match upstream prompt with
  | [] => Except.error (PyError.valueError "No images generated")
  | image :: _ =>
      match fetchImage httpGet image with
      | Except.error e => Except.error e
      | Except.ok (image_base64, calls) =>
          match detect_image_type image_base64 with
          | Except.error e => Except.error e
          | Except.ok output_format =>
              Except.ok
                ({ type := "image", data := image_base64,
                   mimeType := "image/" ++ output_format,
                   annotations := [("case_id", case_id), ("prompt", prompt)] },
                 calls)

/-- `edit_image(image_path, prompt)`. `readFile` models
`open(image_path, "rb").read()`; the file bytes are base64-encoded and passed
to the upstream oracle as the conditioning image. -/
def edit_image (image_path prompt : String) (readFile : String → List Nat)
    (upstream : List Char → List UpstreamImageReference)
    (httpGet : String → List Nat) (case_id : String) :
    Except PyError (ImageContent × List String) :=
  let image_data := readFile image_path
  let image_base64 := b64encode image_data
  match upstream image_base64 with
  | [] => Except.error (PyError.valueError "No images generated")
  | image :: _ =>
      match fetchImage httpGet image with
      | Except.error e => Except.error e
      | Except.ok (result_base64, calls) =>
          match detect_image_type result_base64 with
          | Except.error e => Except.error e
          | Except.ok output_format =>
              Except.ok
                ({ type := "image", data := result_base64,
                   mimeType := "image/" ++ output_format,
                   annotations := [("case_id", case_id), ("prompt", prompt),
                                   ("source_image", image_path)] },
                 calls)

/-- `describe_image(image_path)`: read and base64-encode the file, build a
`data:image/<type>;base64,` URL, and return the chat completion (`chat` is
the upstream vision-model oracle, applied to the data URL). -/
def describe_image (image_path : String) (readFile : String → List Nat)
    (chat : String → String) : Except PyError String :=
  let image_data := readFile image_path
  let image_base64 := b64encode image_data
  match detect_image_type image_base64 with
  | Except.error e => Except.error e
  | Except.ok image_type =>
      Except.ok (chat ("data:image/" ++ image_type ++ ";base64," ++
                       String.mk image_base64))

example :
    generate_image "a cat"
      (fun _ => [{ url := none, b64_json := some ("iVBORw0KGgo=".toList) }])
      (fun _ => []) "cid1" =
    Except.ok
      ({ type := "image", data := "iVBORw0KGgo=".toList,
         mimeType := "image/png",
         annotations := [("case_id", "cid1"), ("prompt", "a cat")] }, []) := by
  decide

example :
    generate_image "x"
      (fun _ => [{ url := some "http://e/x.jpg", b64_json := none }])
      (fun _ => [0xFF, 0xD8, 0xFF, 0x00]) "c" =
    Except.ok
      ({ type := "image", data := "/9j/AA==".toList,
         mimeType := "image/jpeg",
         annotations := [("case_id", "c"), ("prompt", "x")] },
       ["http://e/x.jpg"]) := by
  decide

/-! ## Helper lemmas -/

/-- Every successfully decoded base64 string carries at most 3 payload bytes
per 4 characters. -/
theorem b64decode_length_le (s : List Char) (h : List Nat)
    (hd : b64decode s = some h) : 4 * h.length ≤ 3 * s.length := by
  induction s using b64decode.induct generalizing h <;>
    simp_all [b64decode] <;> (try subst hd) <;> (try simp_all) <;> try omega
  obtain ⟨t, ht, rfl⟩ := hd
  rename_i ih
  have := ih t ht
  simp
  omega

/-- A successfully decoded base64 string without padding characters carries
exactly 3 payload bytes per 4 characters. -/
theorem b64decode_length_nopad (s : List Char) (h : List Nat)
    (hd : b64decode s = some h) (hp : '=' ∉ s) : 3 * s.length = 4 * h.length := by
  induction s using b64decode.induct generalizing h <;>
    simp_all [b64decode] <;> (try subst hd) <;> (try simp_all) <;> try omega
  obtain ⟨t, ht, rfl⟩ := hd
  rename_i ih
  have := ih t ht
  simp
  omega

/-- Inversion for a successful `generate_image` call: the artifact's shape
is fully determined by the fetched buffer and the detector's verdict. -/
theorem generate_image_ok_inv (prompt case_id : String)
    (upstream : String → List UpstreamImageReference)
    (httpGet : String → List Nat) (art : ImageContent) (calls : List String)
    (h : generate_image prompt upstream httpGet case_id = Except.ok (art, calls)) :
    ∃ fmt, detect_image_type art.data = Except.ok fmt ∧
      art.mimeType = "image/" ++ fmt ∧
      art.annotations = [("case_id", case_id), ("prompt", prompt)] ∧
      art.type = "image" := by
  unfold generate_image at h
  cases hup : upstream prompt with
  | nil => simp [hup] at h
  | cons image rest =>
    simp only [hup] at h
    cases hf : fetchImage httpGet image with
    | error e => simp [hf] at h
    | ok pr =>
      obtain ⟨image_base64, calls0⟩ := pr
      simp only [hf] at h
      cases hd : detect_image_type image_base64 with
      | error e => simp [hd] at h
      | ok fmt =>
        simp only [hd, Except.ok.injEq, Prod.mk.injEq] at h
        obtain ⟨h1, h2⟩ := h
        subst h1
        exact ⟨fmt, hd, rfl, rfl, rfl⟩

/-- Inversion for a successful `edit_image` call. -/
theorem edit_image_ok_inv (image_path prompt case_id : String)
    (readFile : String → List Nat)
    (upstream : List Char → List UpstreamImageReference)
    (httpGet : String → List Nat) (art : ImageContent) (calls : List String)
    (h : edit_image image_path prompt readFile upstream httpGet case_id =
      Except.ok (art, calls)) :
    ∃ fmt, detect_image_type art.data = Except.ok fmt ∧
      art.mimeType = "image/" ++ fmt ∧
      art.annotations = [("case_id", case_id), ("prompt", prompt),
                         ("source_image", image_path)] ∧
      art.type = "image" := by
  unfold edit_image at h
  cases hup : upstream (b64encode (readFile image_path)) with
  | nil => simp [hup] at h
  | cons image rest =>
    simp only [hup] at h
    cases hf : fetchImage httpGet image with
    | error e => simp [hf] at h
    | ok pr =>
      obtain ⟨result_base64, calls0⟩ := pr
      simp only [hf] at h
      cases hd : detect_image_type result_base64 with
      | error e => simp [hd] at h
      | ok fmt =>
        simp only [hd, Except.ok.injEq, Prod.mk.injEq] at h
        obtain ⟨h1, h2⟩ := h
        subst h1
        exact ⟨fmt, hd, rfl, rfl, rfl⟩

/-- The signature cascade only ever produces the three container names. -/
theorem classifyHeader_mem (h : List Nat) :
    classifyHeader h = "png" ∨ classifyHeader h = "jpeg" ∨
    classifyHeader h = "webp" := by
  unfold classifyHeader
  split_ifs <;> simp

/-- A header of fewer than 3 bytes is shorter than every signature, so the
cascade falls through to the `png` default. -/
theorem classifyHeader_short (h : List Nat) (hl : h.length < 3) :
    classifyHeader h = "png" := by
  have hp : ¬ h.take pngSignature.length = pngSignature := by
    intro he
    have := congrArg List.length he
    simp [List.length_take, pngSignature] at this
    omega
  have hj : ¬ h.take jpegSignature.length = jpegSignature := by
    intro he
    have := congrArg List.length he
    simp [List.length_take, jpegSignature] at this
    omega
  have hr : ¬ h.take riffSignature.length = riffSignature := by
    intro he
    have := congrArg List.length he
    simp [List.length_take, riffSignature] at this
    omega
  simp [classifyHeader, bytesStartWith, hp, hj, hr]

/-! ## Claim theorems -/

/-- Sample inputs used by the witnesses below. -/
def pngHeader24 : List Nat := pngSignature ++ List.replicate 16 0

def pngSample : List Char := b64encode pngHeader24

/-- Claim C1: for every base64-encoded input of length ≥ 32, the detector
decodes the first 32 characters (24 header bytes when no padding occurs
there) and classifies by the ordered first-match cascade: PNG signature →
"png"; else JPEG signature → "jpeg"; else "RIFF" with "WEBP" at offsets
8–11 → "webp"; else the "png" default. -/
theorem detect_image_type_signature_cascade (s : List Char) (h : List Nat)
    (hlen : 32 ≤ s.length) (hdec : b64decode (s.take 32) = some h) :
    detect_image_type s =
      Except.ok
        (if h.take 8 = pngSignature then "png"
         else if h.take 3 = jpegSignature then "jpeg"
         else if h.take 4 = riffSignature ∧ (h.drop 8).take 4 = webpMarker
           then "webp"
         else "png") ∧
    ('=' ∉ s.take 32 → h.length = 24) := by
  constructor
  · unfold detect_image_type
    rw [hdec]
    have e1 : pngSignature.length = 8 := rfl
    have e2 : jpegSignature.length = 3 := rfl
    have e3 : riffSignature.length = 4 := rfl
    unfold classifyHeader bytesStartWith
    rw [e1, e2, e3]
    by_cases h1 : h.take 8 = pngSignature
    · simp [h1]
    · by_cases h2 : h.take 3 = jpegSignature
      · simp [h1, h2]
      · by_cases h3 : h.take 4 = riffSignature
        · by_cases h4 : (h.drop 8).take 4 = webpMarker
          · simp [h1, h2, h3, h4]
          · simp [h1, h2, h3, h4]
        · simp [h1, h2, h3]
  · intro hpad
    have hlen32 : (s.take 32).length = 32 := by
      simp [List.length_take]
      omega
    have := b64decode_length_nopad (s.take 32) h hdec hpad
    rw [hlen32] at this
    omega

/-- Witness for C1 at a concrete 24-byte PNG header. -/
theorem detect_image_type_signature_cascade_witness :
    32 ≤ pngSample.length ∧ detect_image_type pngSample = Except.ok "png" ∧
    pngHeader24.length = 24 := by
  have h := detect_image_type_signature_cascade pngSample pngHeader24
    (by decide) (by decide)
  exact ⟨by decide, h.1.trans (by decide), h.2 (by decide)⟩

/-- Claim C2: the detector is a pure function of the first 32 characters of
its input: inputs agreeing on their first 32 characters classify alike, and
(determinism being definitional in this embedding) running it twice on the
same input yields the same result. -/
theorem detect_image_type_depends_only_on_first_32 (s t : List Char)
    (hst : s.take 32 = t.take 32) :
    detect_image_type s = detect_image_type t ∧
    detect_image_type s = detect_image_type s := by
  unfold detect_image_type
  rw [hst]
  exact ⟨rfl, rfl⟩

/-- Witness for C2: two concrete inputs that differ beyond position 32. -/
theorem detect_image_type_depends_only_on_first_32_witness :
    detect_image_type pngSample =
      detect_image_type (pngSample ++ "/9j/".toList) :=
  (detect_image_type_depends_only_on_first_32 pngSample
    (pngSample ++ "/9j/".toList) (by decide)).1

/-- Claim C9 (implicit): on every valid base64 input shorter than 32
characters the detector does not error: the truncated prefix decodes to
fewer than 24 header bytes, the comparisons stay total, and a header too
short to match any signature (fewer than 3 bytes) falls through to the
"png" default. -/
theorem detect_image_type_short_input_total (s : List Char) (h : List Nat)
    (hlen : s.length < 32) (hdec : b64decode s = some h) :
    detect_image_type s = Except.ok (classifyHeader h) ∧
    h.length < 24 ∧
    (h.length < 3 → detect_image_type s = Except.ok "png") := by
  have htake : s.take 32 = s := List.take_of_length_le (by omega)
  have hdet : detect_image_type s = Except.ok (classifyHeader h) := by
    unfold detect_image_type
    rw [htake, hdec]
  have hlen24 : h.length < 24 := by
    have := b64decode_length_le s h hdec
    omega
  refine ⟨hdet, hlen24, fun hshort => ?_⟩
  rw [hdet, classifyHeader_short h hshort]

/-- Witness for C9: a 4-character JPEG-headed input and the empty input. -/
theorem detect_image_type_short_input_total_witness :
    detect_image_type ("/9j/".toList) = Except.ok "jpeg" ∧
    detect_image_type [] = Except.ok "png" := by
  have h1 := detect_image_type_short_input_total ("/9j/".toList)
    [0xFF, 0xD8, 0xFF] (by decide) (by decide)
  have h2 := detect_image_type_short_input_total [] [] (by decide) (by decide)
  exact ⟨h1.1.trans (by decide), h2.2.2 (by decide)⟩

/-- Claim C3 counterexample: a reference whose `b64_json` is populated with
the empty string (and whose `url` is absent) is falsy under Python's
`elif image.b64_json:`, so the fetch falls through to
`ValueError("No image data in response")` instead of using the payload
verbatim. -/
theorem fetch_inline_empty_payload_cex :
    fetchImage (fun _ => []) { url := none, b64_json := some [] } ≠
      Except.ok (([] : List Char), ([] : List String)) ∧
    fetchImage (fun _ => []) { url := none, b64_json := some [] } =
      Except.error (PyError.valueError "No image data in response") := by
  decide

/-- Claim C3 (amended): for every reference whose `url` is absent and whose
`b64_json` is populated with a non-empty string, the fetch uses the payload
verbatim with zero network calls, and a successful `generate_image` over
such a reference returns an artifact whose `data` equals the payload
unchanged, with no URL fetched. -/
theorem fetch_inline_payload_verbatim (httpGet : String → List Nat)
    (b : List Char) (hb : b ≠ []) (prompt case_id : String)
    (rest : List UpstreamImageReference)
    (upstream : String → List UpstreamImageReference)
    (hresp : upstream prompt = { url := none, b64_json := some b } :: rest)
    (hdr : List Nat) (hdec : b64decode (b.take 32) = some hdr) :
    fetchImage httpGet { url := none, b64_json := some b } =
      Except.ok (b, []) ∧
    ∃ art : ImageContent,
      generate_image prompt upstream httpGet case_id = Except.ok (art, []) ∧
      art.data = b := by
  have hf : fetchImage httpGet { url := none, b64_json := some b } =
      Except.ok (b, []) := by
    simp [fetchImage, fetchInline, hb]
  have hdet : detect_image_type b = Except.ok (classifyHeader hdr) := by
    unfold detect_image_type
    rw [hdec]
  refine ⟨hf, ?_⟩
  unfold generate_image
  simp only [hresp, hf, hdet]
  exact ⟨_, rfl, rfl⟩

/-- Witness for the amended C3 at a concrete inline PNG payload. -/
theorem fetch_inline_payload_verbatim_witness :
    ∃ art : ImageContent,
      generate_image "a cat"
        (fun _ => [{ url := none, b64_json := some ("iVBORw0KGgo=".toList) }])
        (fun _ => []) "cid" = Except.ok (art, []) ∧
      art.data = "iVBORw0KGgo=".toList :=
  (fetch_inline_payload_verbatim (fun _ => []) ("iVBORw0KGgo=".toList)
    (by decide) "a cat" "cid" []
    (fun _ => [{ url := none, b64_json := some ("iVBORw0KGgo=".toList) }])
    rfl [0x89, 0x50, 0x4E, 0x47, 0x0D, 0x0A, 0x1A, 0x0A] (by decide)).2

/-- Claim C4: a reference with neither `url` nor `b64_json` populated makes
both image pipelines fail with the `NoImageData` error ("No image data in
response") and return no artifact. -/
theorem no_image_fields_noImageData
    (prompt image_path case_id : String) (httpGet readFile : String → List Nat)
    (rest : List UpstreamImageReference)
    (up1 : String → List UpstreamImageReference)
    (up2 : List Char → List UpstreamImageReference) :
    (up1 prompt = { url := none, b64_json := none } :: rest →
      generate_image prompt up1 httpGet case_id =
        Except.error (PyError.valueError "No image data in response")) ∧
    (up2 (b64encode (readFile image_path)) =
        { url := none, b64_json := none } :: rest →
      edit_image image_path prompt readFile up2 httpGet case_id =
        Except.error (PyError.valueError "No image data in response")) ∧
    isNoImageData (PyError.valueError "No image data in response") := by
  have hf : fetchImage httpGet { url := none, b64_json := none } =
      Except.error (PyError.valueError "No image data in response") := by
    simp [fetchImage, fetchInline]
  refine ⟨fun h1 => ?_, fun h2 => ?_, Or.inr rfl⟩
  · unfold generate_image
    simp [h1, hf]
  · unfold edit_image
    simp [h2, hf]

/-- Witness for C4 at concrete oracles. -/
theorem no_image_fields_noImageData_witness :
    generate_image "p" (fun _ => [{ url := none, b64_json := none }])
      (fun _ => []) "c" =
      Except.error (PyError.valueError "No image data in response") :=
  (no_image_fields_noImageData "p" "f" "c" (fun _ => []) (fun _ => []) []
    (fun _ => [{ url := none, b64_json := none }]) (fun _ => [])).1 rfl

/-- Claim C5: an empty upstream image list makes `generate_image` and
`edit_image` fail with the `NoImageData` error ("No images generated")
instead of returning an artifact. -/
theorem empty_response_noImageData
    (prompt image_path case_id : String) (httpGet readFile : String → List Nat)
    (up1 : String → List UpstreamImageReference)
    (up2 : List Char → List UpstreamImageReference) :
    (up1 prompt = [] →
      generate_image prompt up1 httpGet case_id =
        Except.error (PyError.valueError "No images generated")) ∧
    (up2 (b64encode (readFile image_path)) = [] →
      edit_image image_path prompt readFile up2 httpGet case_id =
        Except.error (PyError.valueError "No images generated")) ∧
    isNoImageData (PyError.valueError "No images generated") := by
  refine ⟨fun h1 => ?_, fun h2 => ?_, Or.inl rfl⟩
  · unfold generate_image
    simp [h1]
  · unfold edit_image
    simp [h2]

/-- Witness for C5 at concrete oracles. -/
theorem empty_response_noImageData_witness :
    generate_image "p" (fun _ => []) (fun _ => []) "c" =
      Except.error (PyError.valueError "No images generated") ∧
    edit_image "f" "p" (fun _ => []) (fun _ => []) (fun _ => []) "c" =
      Except.error (PyError.valueError "No images generated") := by
  have h := empty_response_noImageData "p" "f" "c" (fun _ => []) (fun _ => [])
    (fun _ => []) (fun _ => [])
  exact ⟨h.1 rfl, h.2.1 rfl⟩

/-- Claim C6: every artifact returned by a successful image-producing
operation has `mimeType = "image/" ++ <detector verdict on its data>`, and
that verdict is one of "png", "jpeg", "webp" — so the mimeType is exactly
one of image/png, image/jpeg, image/webp. -/
theorem mimeType_from_detector
    (prompt image_path case_id : String) (httpGet readFile : String → List Nat)
    (up1 : String → List UpstreamImageReference)
    (up2 : List Char → List UpstreamImageReference)
    (art1 art2 : ImageContent) (calls1 calls2 : List String) :
    (generate_image prompt up1 httpGet case_id = Except.ok (art1, calls1) →
      ∃ fmt, detect_image_type art1.data = Except.ok fmt ∧
        art1.mimeType = "image/" ++ fmt ∧
        (art1.mimeType = "image/png" ∨ art1.mimeType = "image/jpeg" ∨
         art1.mimeType = "image/webp")) ∧
    (edit_image image_path prompt readFile up2 httpGet case_id =
        Except.ok (art2, calls2) →
      ∃ fmt, detect_image_type art2.data = Except.ok fmt ∧
        art2.mimeType = "image/" ++ fmt ∧
        (art2.mimeType = "image/png" ∨ art2.mimeType = "image/jpeg" ∨
         art2.mimeType = "image/webp")) := by
  constructor
  · intro h1
    obtain ⟨fmt, hdet, hmime, _, _⟩ :=
      generate_image_ok_inv prompt case_id up1 httpGet art1 calls1 h1
    have hfmt : fmt = "png" ∨ fmt = "jpeg" ∨ fmt = "webp" := by
      unfold detect_image_type at hdet
      cases hd : b64decode (art1.data.take 32) with
      | none => simp [hd] at hdet
      | some hdr =>
        simp only [hd, Except.ok.injEq] at hdet
        rw [← hdet]
        exact classifyHeader_mem hdr
    refine ⟨fmt, hdet, hmime, ?_⟩
    rw [hmime]
    rcases hfmt with rfl | rfl | rfl
    · exact Or.inl rfl
    · exact Or.inr (Or.inl rfl)
    · exact Or.inr (Or.inr rfl)
  · intro h2
    obtain ⟨fmt, hdet, hmime, _, _⟩ :=
      edit_image_ok_inv image_path prompt case_id readFile up2 httpGet
        art2 calls2 h2
    have hfmt : fmt = "png" ∨ fmt = "jpeg" ∨ fmt = "webp" := by
      unfold detect_image_type at hdet
      cases hd : b64decode (art2.data.take 32) with
      | none => simp [hd] at hdet
      | some hdr =>
        simp only [hd, Except.ok.injEq] at hdet
        rw [← hdet]
        exact classifyHeader_mem hdr
    refine ⟨fmt, hdet, hmime, ?_⟩
    rw [hmime]
    rcases hfmt with rfl | rfl | rfl
    · exact Or.inl rfl
    · exact Or.inr (Or.inl rfl)
    · exact Or.inr (Or.inr rfl)

/-- Witness for C6 at a concrete successful generation. -/
theorem mimeType_from_detector_witness :
    ∃ fmt,
      detect_image_type ("iVBORw0KGgo=".toList) = Except.ok fmt ∧
      "image/png" = "image/" ++ fmt ∧
      ("image/png" = "image/png" ∨ "image/png" = "image/jpeg" ∨
       "image/png" = "image/webp") :=
  (mimeType_from_detector "a cat" "f" "cid" (fun _ => []) (fun _ => [])
    (fun _ => [{ url := none, b64_json := some ("iVBORw0KGgo=".toList) }])
    (fun _ => [])
    { type := "image", data := "iVBORw0KGgo=".toList, mimeType := "image/png",
      annotations := [("case_id", "cid"), ("prompt", "a cat")] }
    { type := "image", data := [], mimeType := "", annotations := [] }
    [] []).1 (by decide)

/-- Claim C7 counterexample: the handlers perform no non-emptiness
validation: `generate_image` called with the empty prompt does not fail
with `InvalidInput` — it forwards the empty prompt upstream and succeeds. -/
theorem empty_prompt_not_validated_cex :
    generate_image ""
      (fun _ => [{ url := none, b64_json := some ("iVBORw0KGgo=".toList) }])
      (fun _ => []) "cid" =
    Except.ok
      ({ type := "image", data := "iVBORw0KGgo=".toList,
         mimeType := "image/png",
         annotations := [("case_id", "cid"), ("prompt", "")] }, []) := by
  decide

/-- Claim C7 (amended): `generate_image` performs no non-emptiness
validation of its required string input and raises no `InvalidInput`
error: a call with the empty prompt proceeds to the upstream endpoint,
and when the upstream response carries a usable inline image the call
succeeds, returning an artifact whose prompt annotation is the empty
string. (Failures of the external collaborators themselves — file open,
HTTP transport, upstream client — are outside this claim.) -/
theorem generate_image_empty_prompt_not_validated
    (httpGet : String → List Nat) (b : List Char) (hb : b ≠ [])
    (case_id : String) (rest : List UpstreamImageReference)
    (upstream : String → List UpstreamImageReference)
    (hresp : upstream "" = { url := none, b64_json := some b } :: rest)
    (hdr : List Nat) (hdec : b64decode (b.take 32) = some hdr) :
    ∃ art : ImageContent,
      generate_image "" upstream httpGet case_id = Except.ok (art, []) ∧
      art.annotations.lookup "prompt" = some "" := by
  have hf : fetchImage httpGet { url := none, b64_json := some b } =
      Except.ok (b, []) := by
    simp [fetchImage, fetchInline, hb]
  have hdet : detect_image_type b = Except.ok (classifyHeader hdr) := by
    unfold detect_image_type
    rw [hdec]
  unfold generate_image
  simp only [hresp, hf, hdet]
  exact ⟨_, rfl, by simp [List.lookup]⟩

/-- Witness for the amended C7: a concrete empty-prompt generate call that
succeeds and is annotated with the empty prompt. -/
theorem generate_image_empty_prompt_not_validated_witness :
    ∃ art : ImageContent,
      generate_image ""
        (fun _ => [{ url := none, b64_json := some ("iVBORw0KGgo=".toList) }])
        (fun _ => []) "cid" = Except.ok (art, []) ∧
      art.annotations.lookup "prompt" = some "" :=
  generate_image_empty_prompt_not_validated (fun _ => [])
    ("iVBORw0KGgo=".toList) (by decide) "cid" []
    (fun _ => [{ url := none, b64_json := some ("iVBORw0KGgo=".toList) }])
    rfl [0x89, 0x50, 0x4E, 0x47, 0x0D, 0x0A, 0x1A, 0x0A] (by decide)

/-- Claim C8: every successfully returned artifact carries the caller's
prompt under the "prompt" annotation key, and carries the "source_image"
key (holding the source path) exactly when the operation was `edit_image`:
`generate_image` artifacts have no source-image annotation. -/
theorem annotations_provenance
    (prompt image_path case_id : String) (httpGet readFile : String → List Nat)
    (up1 : String → List UpstreamImageReference)
    (up2 : List Char → List UpstreamImageReference)
    (art1 art2 : ImageContent) (calls1 calls2 : List String) :
    (generate_image prompt up1 httpGet case_id = Except.ok (art1, calls1) →
      art1.annotations.lookup "prompt" = some prompt ∧
      art1.annotations.lookup "source_image" = none) ∧
    (edit_image image_path prompt readFile up2 httpGet case_id =
        Except.ok (art2, calls2) →
      art2.annotations.lookup "prompt" = some prompt ∧
      art2.annotations.lookup "source_image" = some image_path) := by
  constructor
  · intro h1
    obtain ⟨fmt, _, _, hann, _⟩ :=
      generate_image_ok_inv prompt case_id up1 httpGet art1 calls1 h1
    rw [hann]
    constructor <;> simp [List.lookup]
  · intro h2
    obtain ⟨fmt, _, _, hann, _⟩ :=
      edit_image_ok_inv image_path prompt case_id readFile up2 httpGet
        art2 calls2 h2
    rw [hann]
    constructor <;> simp [List.lookup]

/-- Witness for C8 at concrete successful generate and edit calls. -/
theorem annotations_provenance_witness :
    ([("case_id", "cid"), ("prompt", "a cat")].lookup "prompt" =
        some "a cat" ∧
      ([("case_id", "cid"), ("prompt", "a cat")] :
          List (String × String)).lookup "source_image" = none) ∧
    ([("case_id", "cid"), ("prompt", "a cat"),
        ("source_image", "/tmp/x.png")].lookup "prompt" = some "a cat" ∧
      [("case_id", "cid"), ("prompt", "a cat"),
        ("source_image", "/tmp/x.png")].lookup "source_image" =
        some "/tmp/x.png") := by
  have h := annotations_provenance "a cat" "/tmp/x.png" "cid"
    (fun _ => []) (fun _ => [])
    (fun _ => [{ url := none, b64_json := some ("iVBORw0KGgo=".toList) }])
    (fun _ => [{ url := none, b64_json := some ("iVBORw0KGgo=".toList) }])
    { type := "image", data := "iVBORw0KGgo=".toList, mimeType := "image/png",
      annotations := [("case_id", "cid"), ("prompt", "a cat")] }
    { type := "image", data := "iVBORw0KGgo=".toList, mimeType := "image/png",
      annotations := [("case_id", "cid"), ("prompt", "a cat"),
                      ("source_image", "/tmp/x.png")] }
    [] []
  exact ⟨h.1 (by decide), h.2 (by decide)⟩

/-- Claim C10 (implicit): when the upstream API returns more than one image
reference, both pipelines use only the first one: replacing every
subsequent reference changes nothing in the result. -/
theorem only_first_reference_used
    (prompt image_path case_id : String) (httpGet readFile : String → List Nat)
    (image : UpstreamImageReference)
    (rest rest2 : List UpstreamImageReference)
    (up1 up1b : String → List UpstreamImageReference)
    (up2 up2b : List Char → List UpstreamImageReference)
    (h1 : up1 prompt = image :: rest) (h1b : up1b prompt = image :: rest2)
    (h2 : up2 (b64encode (readFile image_path)) = image :: rest)
    (h2b : up2b (b64encode (readFile image_path)) = image :: rest2) :
    generate_image prompt up1 httpGet case_id =
      generate_image prompt up1b httpGet case_id ∧
    edit_image image_path prompt readFile up2 httpGet case_id =
      edit_image image_path prompt readFile up2b httpGet case_id := by
  unfold generate_image edit_image
  dsimp only
  rw [h1, h1b, h2, h2b]
  exact ⟨rfl, rfl⟩

/-- Witness for C10: upstream responses with one and with three references
(same head) give identical results. -/
theorem only_first_reference_used_witness :
    generate_image "p"
      (fun _ => [{ url := none, b64_json := some ("iVBORw0KGgo=".toList) }])
      (fun _ => []) "c" =
    generate_image "p"
      (fun _ => [{ url := none, b64_json := some ("iVBORw0KGgo=".toList) },
                 { url := none, b64_json := some ("/9j/".toList) },
                 { url := some "http://e/x", b64_json := none }])
      (fun _ => []) "c" :=
  (only_first_reference_used "p" "f" "c" (fun _ => []) (fun _ => [])
    { url := none, b64_json := some ("iVBORw0KGgo=".toList) }
    [] [{ url := none, b64_json := some ("/9j/".toList) },
        { url := some "http://e/x", b64_json := none }]
    (fun _ => [{ url := none, b64_json := some ("iVBORw0KGgo=".toList) }])
    (fun _ => [{ url := none, b64_json := some ("iVBORw0KGgo=".toList) },
               { url := none, b64_json := some ("/9j/".toList) },
               { url := some "http://e/x", b64_json := none }])
    (fun _ => [{ url := none, b64_json := some ("iVBORw0KGgo=".toList) }])
    (fun _ => [{ url := none, b64_json := some ("iVBORw0KGgo=".toList) },
               { url := none, b64_json := some ("/9j/".toList) },
               { url := some "http://e/x", b64_json := none }])
    rfl rfl rfl rfl).1
